import Mathlib

/-!
Verification development for the Telegram closed-group bot (app.py).

Strings are modelled as lists of characters (`Str`).  The Python runtime
behaviours used by the program are modelled faithfully:
* str.strip() / regex \s use the whitespace set of Python's Unicode mode;
* str.lower() is modelled by Char.toLower (the markers involved are ASCII);
* re.sub with the anchored pattern that extracts a click-id value is
  modelled by an explicit scan (see pyExtractReSub).
-/

set_option maxHeartbeats 1000000

abbrev Str := List Char

/-- Characters matched by Python's str.isspace / regex \s in Unicode mode. -/
def isPySpace (c : Char) : Bool :=
  c = ' ' || c = '\t' || c = '\n' || c = '\x0b' || c = '\x0c' || c = '\r' ||
  c = '\x1c' || c = '\x1d' || c = '\x1e' || c = '\x1f' || c = '\x85' || c = '\xa0' ||
  c = '\u1680' || ('\u2000' ≤ c && c ≤ '\u200a') || c = '\u2028' || c = '\u2029' ||
  c = '\u202f' || c = '\u205f' || c = '\u3000'

/-- Model of Python str.strip(): drop leading and trailing whitespace. -/
def pyStrip (s : Str) : Str :=
  ((s.dropWhile isPySpace).reverse.dropWhile isPySpace).reverse

/-- Does the string start with the given pattern?  Models str.startswith. -/
def startsWithStr : Str → Str → Bool
  | [], _ => true
  | _ :: _, [] => false
  | p :: ps, c :: cs => p = c && startsWithStr ps cs

/-- Substring containment; models the Python expression needle in haystack. -/
def containsSub (needle : Str) : Str → Bool
  | [] => startsWithStr needle []
  | c :: cs => startsWithStr needle (c :: cs) || containsSub needle cs

/-- A character allowed inside a captured click-id value: the regex
character class that excludes an ampersand and whitespace. -/
def okChar (c : Char) : Bool := !(c = '&') && !(isPySpace c)

/-- If the suffix starts with the marker and is followed by at least one
allowed character, the (maximal) captured run; otherwise none. -/
def goodAt (marker suf : Str) : Option Str :=
  if startsWithStr marker suf then
    let run := (suf.drop marker.length).takeWhile okChar
    if run.isEmpty then none else some run
  else none

/-- Scan all suffixes, preferring the rightmost position where the marker
is followed by a non-empty capturable run (greedy leading dot-star of the
source regex matches the last such occurrence). -/
def lastHit (marker : Str) : Str → Option Str
  | [] => none
  | c :: cs =>
    match lastHit marker cs with
    | some r => some r
    | none => goodAt marker (c :: cs)

/-- Model of re.sub on the anchored pattern that rewrites the whole string
to the captured group following the marker.  The dot of the source regex
does not match a newline, so the anchored pattern can only match a
newline-free string; when no match exists re.sub returns the input
unchanged. -/
def pyExtractReSub (marker : Str) (v : Str) : Str :=
  if v.any (fun c => c = '\n') then v
  else
    match lastHit marker v with
    | some r => r
    | none => v

/-- Model of the full-string generic-token regex: letters, digits, dot,
underscore, dash, length at least 10. -/
def genericToken (v : Str) : Bool :=
  decide (10 ≤ v.length) &&
  v.all (fun c => c.isAlpha || c.isDigit || c = '.' || c = '_' || c = '-')

/-- Model of classify_click_id from app.py: strip, lowercase for the
marker checks, extract with the case-sensitive regex, with the priority
order wbraid, gbraid, gclid and a permissive gclid default. -/
def classify_click_id (value : Str) : Str × Str :=
  let v := pyStrip value
  let low := v.map Char.toLower
  if containsSub ("wbraid=".data) low || startsWithStr ("wbraid.".data) low then
    ("wbraid".data, pyExtractReSub ("wbraid=".data) v)
  else if containsSub ("gbraid=".data) low || startsWithStr ("gbraid.".data) low then
    ("gbraid".data, pyExtractReSub ("gbraid=".data) v)
  else if containsSub ("gclid=".data) low || startsWithStr ("c.".data) low then
    ("gclid".data, pyExtractReSub ("gclid=".data) v)
  else if genericToken v then
    ("gclid".data, v)
  else
    ("gclid".data, v)

/-! ## Storage layer (class Storage in app.py)

The store has two backends: an in-memory dictionary mapping a user id to
a single key/value pair, and a Google Sheets worksheet modelled as a list
of rows (user_id, key, value) in sheet order (header row abstracted away).
Each operation on the sheets backend takes a Boolean saying whether the
remote call raises during that operation.  For set_click and get_click a
failure leaves the sheet unchanged (the single remote write either takes
effect or raises); remove_click rewrites the sheet as clear-then-update,
so it takes a second Boolean selecting whether the raise happens in the
update call after a successful clear (leaving the sheet wiped) or earlier
(leaving it unchanged).  The in-memory path
never fails.  get_click performs no mutation in the source, so it returns
only a value; the state-transformer view applyOp returns the state
unchanged for a get. -/

/-- Backend selector: the self.backend field of Storage. -/
inductive SBackend
  | memory
  | sheets
  deriving DecidableEq, Repr

/-- One worksheet data row: (user_id, key, value). -/
abbrev SheetRow := Int × Str × Str

/-- State of the Storage object: backend flag, in-memory dict, sheet rows. -/
structure Storage where
  backend : SBackend
  mem : Int → Option (Str × Str)
  sheet : List SheetRow

/-- Pointwise update of the in-memory dictionary. -/
def memUpdate (m : Int → Option (Str × Str)) (u : Int) (e : Option (Str × Str)) :
    Int → Option (Str × Str) :=
  fun x => if x = u then e else m x

/-- Sheets write: replace the first row whose user_id matches, else append
(the linear scan plus update-or-append of set_click). -/
def setRows : List SheetRow → Int → Str → Str → List SheetRow
  | [], u, k, v => [(u, k, v)]
  | r :: rs, u, k, v =>
    if r.1 = u then (u, k, v) :: rs else r :: setRows rs u k v

/-- Sheets lookup: first row whose user_id matches (the linear scan of
get_click). -/
def findRow : List SheetRow → Int → Option (Str × Str)
  | [], _ => none
  | r :: rs, u => if r.1 = u then some r.2 else findRow rs u

/-- Model of Storage.set_click.  fail says whether the remote call raises
when the sheets backend is active; the except branch writes the binding
to the in-memory dict and downgrades the backend flag. -/
def set_click (st : Storage) (u : Int) (k v : Str) (fail : Bool) : Storage :=
  match st.backend with
  | .memory => { st with mem := memUpdate st.mem u (some (k, v)) }
  | .sheets =>
    if fail then
      { backend := .memory, mem := memUpdate st.mem u (some (k, v)), sheet := st.sheet }
    else
      { st with sheet := setRows st.sheet u k v }

/-- Model of Storage.get_click.  The except branch answers from the
in-memory dict; the source performs no mutation in either branch. -/
def get_click (st : Storage) (u : Int) (fail : Bool) : Option (Str × Str) :=
  match st.backend with
  | .memory => st.mem u
  | .sheets => if fail then st.mem u else findRow st.sheet u

/-- Model of Storage.remove_click: returns whether a binding was removed.
On the sheets backend the source reads all rows, calls clear(), then
rewrites the table without the target rows; fail says the remote path
raises, and failAfterClear selects the failure point: true means the
update call raised after clear() succeeded, so the sheet is left wiped;
false means get_all_records or clear raised, leaving the sheet
unchanged.  The except branch returns False either way and touches
neither the in-memory dict nor the backend flag. -/
def remove_click (st : Storage) (u : Int) (fail failAfterClear : Bool) :
    Bool × Storage :=
  match st.backend with
  | .memory => ((st.mem u).isSome, { st with mem := memUpdate st.mem u none })
  | .sheets =>
    if fail then
      if failAfterClear then (false, { st with sheet := [] })
      else (false, st)
    else
      (st.sheet.any (fun r => r.1 = u),
       { st with sheet := st.sheet.filter (fun r => !(r.1 = u)) })

/-- A store operation, for stating frame properties uniformly. -/
inductive StoreOp
  | setOp (u : Int) (k v : Str)
  | getOp (u : Int)
  | removeOp (u : Int) (failAfterClear : Bool)

/-- State transformer of one store operation (get has no state effect in
the source). -/
def applyOp (st : Storage) (op : StoreOp) (fail : Bool) : Storage :=
  match op with
  | .setOp u k v => set_click st u k v fail
  | .getOp _ => st
  | .removeOp u fac => (remove_click st u fail fac).2

/-- Model of the GET /health route body: (ok, storage, ads_ready). -/
def health (st : Storage) (adsReady : Bool) : Bool × SBackend × Bool :=
  (true, st.backend, adsReady)

/-- Rows of the sheet belonging to one user. -/
def rowsFor : List SheetRow → Int → List SheetRow
  | [], _ => []
  | r :: rs, u => if r.1 = u then r :: rowsFor rs u else rowsFor rs u

/-- The sheet-table invariant: at most one row per user id. -/
def oneRowPerUser (rows : List SheetRow) : Prop :=
  ∀ u : Int, (rowsFor rows u).length ≤ 1

/-! ## Timestamp formatting (iso_for_google_ads) -/

/-- A timezone-aware Python datetime, with the UTC offset in whole
minutes (the granularity used by datetime.timezone objects such as
timezone.utc). -/
structure PyDatetime where
  year : Nat
  month : Nat
  day : Nat
  hour : Nat
  minute : Nat
  second : Nat
  offMinutes : Int

/-- Field ranges of an aware datetime (years restricted to four decimal
digits, matching the four-digit strftime rendering). -/
def validDT (dt : PyDatetime) : Prop :=
  1000 ≤ dt.year ∧ dt.year ≤ 9999 ∧ 1 ≤ dt.month ∧ dt.month ≤ 12 ∧
  1 ≤ dt.day ∧ dt.day ≤ 31 ∧ dt.hour ≤ 23 ∧ dt.minute ≤ 59 ∧
  dt.second ≤ 59 ∧ dt.offMinutes.natAbs < 1440

instance (dt : PyDatetime) : Decidable (validDT dt) := by
  unfold validDT; infer_instance

/-- Two-digit zero-padded decimal rendering; models the strftime fields
that are two digits wide for in-range inputs. -/
def pad2 (n : Nat) : Str := [Nat.digitChar (n / 10), Nat.digitChar (n % 10)]

/-- Four-digit zero-padded decimal rendering; models the strftime year
field for four-digit years. -/
def pad4 (n : Nat) : Str :=
  [Nat.digitChar (n / 1000), Nat.digitChar (n / 100 % 10),
   Nat.digitChar (n / 10 % 10), Nat.digitChar (n % 10)]

/-- Model of the strftime %z rendering of a whole-minute UTC offset. -/
def formatOffset (off : Int) : Str :=
  (if off < 0 then '-' else '+') :: (pad2 (off.natAbs / 60) ++ pad2 (off.natAbs % 60))

/-- Model of dt.strftime of the date-time pattern with a trailing %z. -/
def strftimeYmdHmsZ (dt : PyDatetime) : Str :=
  pad4 dt.year ++ '-' :: (pad2 dt.month ++ '-' :: (pad2 dt.day ++ ' ' ::
    (pad2 dt.hour ++ ':' :: (pad2 dt.minute ++ ':' ::
      (pad2 dt.second ++ formatOffset dt.offMinutes)))))

/-- Model of iso_for_google_ads: format with %z and splice a colon before
the final two characters (the slicing expression of the source). -/
def iso_for_google_ads (dt : PyDatetime) : Str :=
  let s := strftimeYmdHmsZ dt
  s.take (s.length - 2) ++ ':' :: s.drop (s.length - 2)

/-- One token of a textual timestamp shape. -/
inductive STok
  | digit
  | sign
  | lit (c : Char)

/-- Does the string match the token pattern position by position? -/
def shapeOK : List STok → Str → Bool
  | [], [] => true
  | .digit :: ps, c :: cs => c.isDigit && shapeOK ps cs
  | .sign :: ps, c :: cs => (c = '+' || c = '-') && shapeOK ps cs
  | .lit a :: ps, c :: cs => c = a && shapeOK ps cs
  | _, _ => false

/-- The reporter's required textual timestamp pattern
YYYY-MM-DD HH:MM:SS(sign)HH:MM. -/
def adsShape : List STok :=
  [.digit, .digit, .digit, .digit, .lit '-', .digit, .digit, .lit '-',
   .digit, .digit, .lit ' ', .digit, .digit, .lit ':', .digit, .digit,
   .lit ':', .digit, .digit, .sign, .digit, .digit, .lit ':', .digit, .digit]

/-! ## Conversion upload (upload_click_conversion) and join handling -/

/-- Python truthiness filter on an optional string: None and the empty
string are falsy, so the corresponding field is left unset. -/
def truthy (o : Option Str) : Option Str :=
  match o with
  | some s => if s.isEmpty then none else some s
  | none => none

/-- The ClickConversion request built by upload_click_conversion (the
float conversion_value 0.0 is not modelled; no claim concerns it). -/
structure ConversionRecord where
  gclid : Option Str
  gbraid : Option Str
  wbraid : Option Str
  conversion_action : Str
  conversion_date_time : Str
  currency_code : Str
  order_id : Option Str

/-- Model of upload_click_conversion: raises when the Google Ads client
is not initialized, otherwise builds the ClickConversion record; the
fields are set only for truthy arguments. -/
def upload_click_conversion (gclid gbraid wbraid : Option Str)
    (customerId actionId whenIso currency : Str) (orderId : Option Str)
    (clientReady : Bool) : Except Unit ConversionRecord :=
  if clientReady then
    .ok { gclid := truthy gclid, gbraid := truthy gbraid, wbraid := truthy wbraid,
          conversion_action :=
            "customers/".data ++ customerId ++ "/conversionActions/".data ++ actionId,
          conversion_date_time := whenIso,
          currency_code := currency,
          order_id := truthy orderId }
  else
    .error ()

/-- Observable outcome of one join-request event. -/
structure JoinOutcome where
  approved : Bool
  lookupPerformed : Bool
  record : Option ConversionRecord
  uploadInvoked : Bool

/-- Model of on_join_request.  approveFails says whether req.approve()
raises (the exception is caught and only logged); getFails says whether
the storage read hits a failing sheets call.  uidStr and tsStr are the
decimal renderings interpolated into the dedup token, uuid8 the uuid hex
prefix.  The handler performs no storage writes, so the store is
unchanged. -/
def on_join_request (st : Storage) (uid : Int) (adsReady : Bool)
    (customerId actionId : Str) (now : PyDatetime)
    (uidStr tsStr uuid8 : Str) (approveFails getFails : Bool) : JoinOutcome :=
  let approved := !approveFails
  let pair := get_click st uid getFails
  match pair, adsReady with
  | some (key, val), true =>
    let whenIso := iso_for_google_ads now
    let dedup := "join-".data ++ uidStr ++ "-".data ++ tsStr ++ "-".data ++ uuid8
    let args : Option Str × Option Str × Option Str :=
      if key = "gclid".data then (some val, none, none)
      else if key = "gbraid".data then (none, some val, none)
      else (none, none, some val)
    let built := upload_click_conversion args.1 args.2.1 args.2.2
      customerId actionId whenIso ("UAH".data) (some dedup) true
    { approved := approved, lookupPerformed := true,
      record := built.toOption, uploadInvoked := true }
  | _, _ =>
    { approved := approved, lookupPerformed := true,
      record := none, uploadInvoked := false }

/-! ## Webhook gateway (telegram_webhook) -/

/-- Observable outcome of one POST /webhook/{secret} request.  deJsonArg
is the dictionary passed to Update.de_json when it is invoked. -/
structure WebhookOutcome (α : Type) where
  status : Nat
  body_ok : Bool
  deJsonArg : Option α
  processCalled : Bool

/-- Model of telegram_webhook.  parsed is the JSON-decoded body (none
when json.loads raised); isTruthy models Python truthiness of the parsed
payload (the payload-or-empty expression); constructRaises and
dispatchRaises say whether Update.de_json or process_update raise (both
are caught). -/
def telegram_webhook {α : Type} (wsecret secret : String) (parsed : Option α)
    (isTruthy : α → Bool) (emptyPayload : α)
    (constructRaises dispatchRaises : Bool) : WebhookOutcome α :=
  if secret ≠ wsecret then
    { status := 403, body_ok := false, deJsonArg := none, processCalled := false }
  else
    let payload :=
      match parsed with
      | some p => if isTruthy p then p else emptyPayload
      | none => emptyPayload
    if constructRaises then
      { status := 200, body_ok := true, deJsonArg := some payload, processCalled := false }
    else
      { status := 200, body_ok := true, deJsonArg := some payload,
        processCalled := true }

/-- Concrete sheets-backed store used to refute claim C3: the in-memory
dictionary and the sheet both hold a binding for user 7. -/
def c3State : Storage :=
  ⟨SBackend.sheets,
   fun x => if x = 7 then some ("gclid".data, "zzz".data) else none,
   [(7, "gclid".data, "zzz".data)]⟩

/-- Concrete sheets-backed store whose sheet holds a binding for user 3
that is absent from the in-memory map, used to witness C10. -/
def c10State : Storage :=
  ⟨SBackend.sheets, fun _ => none, [(3, "gclid".data, "q".data)]⟩

/-! ## Claim theorems: join-request flow -/

/-- Concrete memory-backed store holding the binding (gclid, abc123) for
user 42, used to refute claim C8. -/
def c8State : Storage :=
  ⟨SBackend.memory,
   fun x => if x = 42 then some ("gclid".data, "abc123".data) else none,
   []⟩

/-- Concrete aware datetime used in the C8 counterexample. -/
def c8Now : PyDatetime := ⟨2025, 1, 2, 3, 4, 5, 0⟩

/-- Concrete memory-backed store holding the binding (gclid, abc123) for
user 42, used to witness claim C9. -/
def c9State : Storage :=
  ⟨SBackend.memory,
   fun x => if x = 42 then some ("gclid".data, "abc123".data) else none,
   []⟩

/-- Concrete aware datetime used in the C9 witness. -/
def c9Now : PyDatetime := ⟨2026, 10, 12, 23, 59, 0, 120⟩

/-! ## Classifier lemmas (C4, C5) -/

/-- The three click-identifier kinds. -/
inductive ClickKind
  | wbraid
  | gbraid
  | gclid

/-- The URL-parameter marker of a kind. -/
def markerOf : ClickKind → Str
  | .wbraid => "wbraid=".data
  | .gbraid => "gbraid=".data
  | .gclid => "gclid=".data

/-- The name of a kind as returned by the classifier. -/
def kindName : ClickKind → Str
  | .wbraid => "wbraid".data
  | .gbraid => "gbraid".data
  | .gclid => "gclid".data

/-- All classifier checks of strictly higher priority than the given kind
fail on the lowercased stripped input. -/
def priorChecksFail (k : ClickKind) (low : Str) : Bool :=
  match k with
  | .wbraid => true
  | .gbraid =>
    !(containsSub ("wbraid=".data) low || startsWithStr ("wbraid.".data) low)
  | .gclid =>
    !(containsSub ("wbraid=".data) low || startsWithStr ("wbraid.".data) low) &&
    !(containsSub ("gbraid=".data) low || startsWithStr ("gbraid.".data) low)

/-- True when the string is empty or its first character cannot belong to
a captured value (it is an ampersand or whitespace). -/
def headNotOk (r : Str) : Bool :=
  match r with
  | [] => true
  | c :: _ => !okChar c

/-! ## Theorems -/

/-- After a successful sheets write for user u, the first matching row
holds the new pair. -/
theorem findRow_setRows (rows : List SheetRow) (u : Int) (k v : Str) :
    findRow (setRows rows u k v) u = some (k, v) := by
  induction rows with
  | nil => simp [setRows, findRow]
  | cons r rs ih =>
    by_cases h : r.1 = u
    · simp [setRows, h, findRow]
    · simp [setRows, h, findRow, ih]

/-- A sheets write leaves the rows of every other user unchanged. -/
theorem rowsFor_setRows_ne (rows : List SheetRow) (u w : Int) (k v : Str)
    (h : w ≠ u) : rowsFor (setRows rows u k v) w = rowsFor rows w := by
  have h' : ¬(u = w) := fun e => h e.symm
  induction rows with
  | nil => simp [setRows, rowsFor, h']
  | cons r rs ih =>
    by_cases hr : r.1 = u
    · have hw : ¬(r.1 = w) := by rw [hr]; exact h'
      simp [setRows, hr, rowsFor, h', hw]
    · by_cases hw : r.1 = w <;> simp [setRows, hr, rowsFor, hw, ih, h]

/-- A sheets write keeps the target user's row count at one when it was
at most one. -/
theorem rowsFor_setRows_self (rows : List SheetRow) (u : Int) (k v : Str)
    (h : (rowsFor rows u).length ≤ 1) :
    (rowsFor (setRows rows u k v) u).length ≤ 1 := by
  induction rows with
  | nil => simp [setRows, rowsFor]
  | cons r rs ih =>
    by_cases hr : r.1 = u
    · simp only [rowsFor, hr, if_pos, List.length_cons] at h
      simp only [setRows, hr, if_pos, rowsFor, List.length_cons]
      omega
    · simp only [rowsFor, hr, if_neg, not_false_iff] at h
      simp only [setRows, hr, if_neg, not_false_iff, rowsFor]
      exact ih h

/-- set_click preserves the at-most-one-row-per-user sheet invariant on
every backend and under failure. -/
theorem oneRowPerUser_set_click (st : Storage) (u : Int) (k v : Str) (fail : Bool)
    (h : oneRowPerUser st.sheet) : oneRowPerUser (set_click st u k v fail).sheet := by
  cases hb : st.backend with
  | memory => simpa [set_click, hb] using h
  | sheets =>
    cases fail with
    | true => simpa [set_click, hb] using h
    | false =>
      intro w
      have hs : (set_click st u k v false).sheet = setRows st.sheet u k v := by
        simp [set_click, hb]
      rw [hs]
      by_cases hw : w = u
      · subst hw; exact rowsFor_setRows_self st.sheet w k v (h w)
      · rw [rowsFor_setRows_ne st.sheet u w k v hw]; exact h w

/-! ## Claim theorems: storage -/

/-- C1: for every user id and kind/value pair, set_click followed by
get_click on the same store returns the pair just written, on both the
in-memory backend and the sheets backend (sheets modelled as a row
table); remote calls succeed. -/
theorem c1_set_get_roundtrip (st : Storage) (u : Int) (k v : Str) :
    get_click (set_click st u k v false) u false = some (k, v) := by
  cases hb : st.backend with
  | memory => simp [set_click, get_click, hb, memUpdate]
  | sheets => simp [set_click, get_click, hb, findRow_setRows]

/-- C2: two successive set_click calls for the same user leave the second
pair as the one returned by get_click (last-write-wins), and set_click
preserves the at-most-one-binding-per-user invariant of the sheet table
(the in-memory dictionary holds one entry per key by construction). -/
theorem c2_last_write_wins :
    (∀ (st : Storage) (u : Int) (k1 v1 k2 v2 : Str),
      get_click (set_click (set_click st u k1 v1 false) u k2 v2 false) u false
        = some (k2, v2)) ∧
    (∀ (st : Storage) (u : Int) (k v : Str) (fail : Bool),
      oneRowPerUser st.sheet → oneRowPerUser (set_click st u k v fail).sheet) := by
  constructor
  · intro st u k1 v1 k2 v2
    cases hb : st.backend with
    | memory => simp [set_click, get_click, hb, memUpdate]
    | sheets => simp [set_click, get_click, hb, findRow_setRows]
  · intro st u k v fail h
    exact oneRowPerUser_set_click st u k v fail h

/-- Witness for C2: the invariant-preservation part applied to a concrete
sheets-backed store with an empty table. -/
theorem c2_last_write_wins_witness :
    oneRowPerUser ((set_click ⟨SBackend.sheets, fun _ => none, []⟩
      1 ("gclid".data) ("x".data) false).sheet) := by
  have h0 : oneRowPerUser (Storage.mk SBackend.sheets (fun _ => none) []).sheet := by
    intro u; simp [rowsFor]
  exact c2_last_write_wins.2 ⟨SBackend.sheets, fun _ => none, []⟩
    1 ("gclid".data) ("x".data) false h0

/-- C3 counterexample: when the remote call of remove_click fails, the
operation does not degrade to the volatile in-memory path: it returns
false and leaves the in-memory binding for user 7 in place (whereas the
volatile path on the same store returns true and removes it), and when
the failure strikes the update call after clear() the sheet is even left
wiped while False is still returned. -/
theorem c3_remove_click_counterexample :
    (remove_click c3State 7 true false).1 = false ∧
    (remove_click c3State 7 true false).2.mem 7 = some ("gclid".data, "zzz".data) ∧
    (remove_click c3State 7 true true).1 = false ∧
    (remove_click c3State 7 true true).2.mem 7 = some ("gclid".data, "zzz".data) ∧
    (remove_click c3State 7 true true).2.sheet = [] ∧
    (remove_click { c3State with backend := SBackend.memory } 7 true false).1 = true ∧
    (remove_click { c3State with backend := SBackend.memory } 7 true false).2.mem 7
      = none := by
  refine ⟨rfl, by decide, rfl, by decide, rfl, by decide, by decide⟩

/-- C3 amended: on the sheets backend a remote failure never raises to
the caller; a failed set_click writes the binding to the in-memory map
and downgrades the backend flag to volatile, and a failed get_click
answers from the in-memory map; but a failed remove_click does not
degrade to the volatile path: it returns false and leaves the in-memory
map and the backend flag unchanged, while the sheet is left unchanged
when the failure precedes the clear call and left wiped when the update
call fails after a successful clear. -/
theorem c3_failure_semantics (st : Storage) (u : Int) (k v : Str)
    (hb : st.backend = SBackend.sheets) :
    set_click st u k v true =
      { backend := SBackend.memory, mem := memUpdate st.mem u (some (k, v)),
        sheet := st.sheet } ∧
    get_click st u true = st.mem u ∧
    (∀ failAfterClear : Bool,
      (remove_click st u true failAfterClear).1 = false ∧
      (remove_click st u true failAfterClear).2.mem = st.mem ∧
      (remove_click st u true failAfterClear).2.backend = SBackend.sheets ∧
      (remove_click st u true failAfterClear).2.sheet =
        (if failAfterClear then [] else st.sheet)) := by
  refine ⟨?_, ?_, ?_⟩
  · simp [set_click, hb]
  · simp [get_click, hb]
  · intro fac
    cases fac <;> simp [remove_click, hb]

/-- Witness for C3 amended: the failure semantics at concrete stores,
including the post-clear failure point that wipes the sheet. -/
theorem c3_failure_semantics_witness :
    get_click ⟨SBackend.sheets, fun _ => none, []⟩ 1 true = none ∧
    (remove_click ⟨SBackend.sheets, fun _ => none, [(2, "k".data, "v".data)]⟩
      2 true true).1 = false ∧
    (remove_click ⟨SBackend.sheets, fun _ => none, [(2, "k".data, "v".data)]⟩
      2 true true).2.sheet = [] := by
  have h1 := c3_failure_semantics ⟨SBackend.sheets, fun _ => none, []⟩ 1
    ("a".data) ("b".data) rfl
  have h2 := c3_failure_semantics
    ⟨SBackend.sheets, fun _ => none, [(2, "k".data, "v".data)]⟩ 2
    ("a".data) ("b".data) rfl
  exact ⟨h1.2.1, (h2.2.2 true).1, (h2.2.2 true).2.2.2⟩

/-! ## Claim theorems: webhook gateway -/

/-- C6: a webhook call whose path secret differs from the configured
secret returns HTTP 403 with body ok=false and invokes neither
Update.de_json nor the update dispatcher, for every request body. -/
theorem c6_bad_secret_rejected {α : Type} (wsecret secret : String)
    (parsed : Option α) (isTruthy : α → Bool) (emptyPayload : α)
    (constructRaises dispatchRaises : Bool)
    (h : secret ≠ wsecret) :
    telegram_webhook wsecret secret parsed isTruthy emptyPayload
      constructRaises dispatchRaises =
      { status := 403, body_ok := false, deJsonArg := none, processCalled := false } := by
  simp [telegram_webhook, h]

/-- Witness for C6 at a concrete wrong secret. -/
theorem c6_bad_secret_rejected_witness :
    telegram_webhook "s3cret" "wrong" (none : Option Unit) (fun _ => true) ()
      false false =
      { status := 403, body_ok := false, deJsonArg := none, processCalled := false } :=
  c6_bad_secret_rejected "s3cret" "wrong" none (fun _ => true) () false false
    (by decide)

/-- C7: a webhook call with the correct secret always acknowledges with
status 200 and body ok=true, for every body: a body that fails JSON
parsing is dispatched as the empty update, and construction or dispatch
exceptions do not change the response. -/
theorem c7_ok_acknowledgement {α : Type} (wsecret secret : String)
    (parsed : Option α) (isTruthy : α → Bool) (emptyPayload : α)
    (constructRaises dispatchRaises : Bool)
    (h : secret = wsecret) :
    (telegram_webhook wsecret secret parsed isTruthy emptyPayload
      constructRaises dispatchRaises).status = 200 ∧
    (telegram_webhook wsecret secret parsed isTruthy emptyPayload
      constructRaises dispatchRaises).body_ok = true ∧
    (parsed = none →
      (telegram_webhook wsecret secret parsed isTruthy emptyPayload
        constructRaises dispatchRaises).deJsonArg = some emptyPayload) ∧
    (constructRaises = false →
      (telegram_webhook wsecret secret parsed isTruthy emptyPayload
        constructRaises dispatchRaises).processCalled = true) := by
  subst h
  cases constructRaises <;> cases parsed <;>
    simp [telegram_webhook]

/-- Witness for C7: invalid JSON body (parse failure) with a dispatch
exception still yields the 200 ok acknowledgement and dispatches the
empty update. -/
theorem c7_ok_acknowledgement_witness :
    (telegram_webhook "s3cret" "s3cret" (none : Option Unit) (fun _ => true) ()
      false true).deJsonArg = some () ∧
    (telegram_webhook "s3cret" "s3cret" (none : Option Unit) (fun _ => true) ()
      false true).processCalled = true := by
  have h := c7_ok_acknowledgement "s3cret" "s3cret" (none : Option Unit)
    (fun _ => true) () false true rfl
  exact ⟨h.2.2.1 rfl, h.2.2.2 rfl⟩

/-! ## Claim theorem: backend flag and degraded reads (C10) -/

/-- C10: the backend flag changes after construction only through a
failed set_click on the sheets backend, to memory, and never back; a get
leaves the store unchanged; a failed get on the sheets backend answers
from the in-memory map, so /health keeps reporting the sheets backend
while reads are degraded, and a binding present only in the sheet is
invisible to such a degraded read. -/
theorem c10_backend_flag_frame :
    (∀ (st : Storage) (op : StoreOp) (fail : Bool),
      (applyOp st op fail).backend ≠ st.backend →
      st.backend = SBackend.sheets ∧
      (applyOp st op fail).backend = SBackend.memory ∧
      fail = true ∧ ∃ u k v, op = StoreOp.setOp u k v) ∧
    (∀ (st : Storage) (op : StoreOp) (fail : Bool),
      st.backend = SBackend.memory →
      (applyOp st op fail).backend = SBackend.memory) ∧
    (∀ (st : Storage) (u : Int) (fail : Bool),
      applyOp st (StoreOp.getOp u) fail = st) ∧
    (∀ (st : Storage) (u : Int), st.backend = SBackend.sheets →
      get_click st u true = st.mem u) ∧
    (∀ (st : Storage) (u : Int) (ads : Bool), st.backend = SBackend.sheets →
      health (applyOp st (StoreOp.getOp u) true) ads = (true, SBackend.sheets, ads)) ∧
    (∀ (st : Storage) (u : Int) (k v : Str), st.backend = SBackend.sheets →
      st.mem u = none → findRow st.sheet u = some (k, v) →
      get_click st u true = none) := by
  have h1 : ∀ (st : Storage) (op : StoreOp) (fail : Bool),
      (applyOp st op fail).backend ≠ st.backend →
      st.backend = SBackend.sheets ∧
      (applyOp st op fail).backend = SBackend.memory ∧
      fail = true ∧ ∃ u k v, op = StoreOp.setOp u k v := by
    intro st op fail h
    cases op with
    | setOp u k v =>
      cases hb : st.backend with
      | memory => exact absurd (by simp [applyOp, set_click, hb]) h
      | sheets =>
        cases fail with
        | false => exact absurd (by simp [applyOp, set_click, hb]) h
        | true =>
          exact ⟨rfl, by simp [applyOp, set_click, hb], rfl, u, k, v, rfl⟩
    | getOp u => exact absurd rfl h
    | removeOp u fac =>
      exfalso
      apply h
      cases hb : st.backend with
      | memory => simp [applyOp, remove_click, hb]
      | sheets => cases fail <;> cases fac <;> simp [applyOp, remove_click, hb]
  refine ⟨h1, ?_, ?_, ?_, ?_, ?_⟩
  · intro st op fail hm
    by_cases he : (applyOp st op fail).backend = st.backend
    · rw [he]; exact hm
    · exact (h1 st op fail he).2.1
  · intro st u fail; rfl
  · intro st u hb; simp [get_click, hb]
  · intro st u ads hb; simp [health, applyOp, hb]
  · intro st u k v hb hm _hrow; simp [get_click, hb, hm]

/-- Witness for C10: on the concrete store, a failed get leaves the state
unchanged, misses the sheet-only binding, and /health still reports
sheets. -/
theorem c10_backend_flag_frame_witness :
    applyOp c10State (StoreOp.getOp 3) true = c10State ∧
    get_click c10State 3 true = none ∧
    health (applyOp c10State (StoreOp.getOp 3) true) true =
      (true, SBackend.sheets, true) := by
  have h := c10_backend_flag_frame
  exact ⟨h.2.2.1 c10State 3 true,
         h.2.2.2.2.2 c10State 3 ("gclid".data) ("q".data) rfl rfl rfl,
         h.2.2.2.2.1 c10State 3 true rfl⟩

/-! ## Timestamp shape lemmas -/

/-- The decimal digit characters are digits. -/
theorem digitChar_isDigit : ∀ n, n < 10 → (Nat.digitChar n).isDigit = true := by
  decide

/-- A two-digit field of an in-range number matches two digit tokens. -/
theorem shapeOK_pad2 (n : Nat) (h : n ≤ 99) :
    shapeOK [STok.digit, STok.digit] (pad2 n) = true := by
  have h1 := digitChar_isDigit (n / 10) (by omega)
  have h2 := digitChar_isDigit (n % 10) (by omega)
  simp [shapeOK, pad2, h1, h2]

/-- A four-digit field of an in-range number matches four digit tokens. -/
theorem shapeOK_pad4 (n : Nat) (h : n ≤ 9999) :
    shapeOK [STok.digit, STok.digit, STok.digit, STok.digit] (pad4 n) = true := by
  have h1 := digitChar_isDigit (n / 1000) (by omega)
  have h2 := digitChar_isDigit (n / 100 % 10) (by omega)
  have h3 := digitChar_isDigit (n / 10 % 10) (by omega)
  have h4 := digitChar_isDigit (n % 10) (by omega)
  simp [shapeOK, pad4, h1, h2, h3, h4]

/-- Shape matching is compositional over concatenation. -/
theorem shapeOK_append {p1 p2 : List STok} {s1 s2 : Str}
    (h1 : shapeOK p1 s1 = true) (h2 : shapeOK p2 s2 = true) :
    shapeOK (p1 ++ p2) (s1 ++ s2) = true := by
  induction p1 generalizing s1 with
  | nil =>
    cases s1 with
    | nil => simpa using h2
    | cons c cs => simp [shapeOK] at h1
  | cons t ps ih =>
    cases s1 with
    | nil => cases t <;> simp [shapeOK] at h1
    | cons c cs =>
      cases t with
      | digit =>
        simp [shapeOK] at h1 ⊢
        exact ⟨h1.1, ih h1.2⟩
      | sign =>
        simp [shapeOK] at h1 ⊢
        rcases h1 with ⟨hc, hs⟩
        exact ⟨hc, ih hs⟩
      | lit a =>
        simp [shapeOK] at h1 ⊢
        exact ⟨h1.1, ih h1.2⟩

/-- A literal token consumes its own character. -/
theorem shapeOK_lit_cons (a : Char) (ps : List STok) (s : Str)
    (h : shapeOK ps s = true) : shapeOK (STok.lit a :: ps) (a :: s) = true := by
  simp [shapeOK, h]

/-- A sign token consumes a plus or minus character. -/
theorem shapeOK_sign_cons (c : Char) (ps : List STok) (s : Str)
    (hc : (c = '+' || c = '-') = true) (h : shapeOK ps s = true) :
    shapeOK (STok.sign :: ps) (c :: s) = true := by
  simp [shapeOK, hc, h]

/-- Splicing a colon before the last two characters of a string that ends
in two known characters. -/
theorem spliceColon (a : Str) (x y : Char) :
    (a ++ [x, y]).take ((a ++ [x, y]).length - 2) ++
      ':' :: (a ++ [x, y]).drop ((a ++ [x, y]).length - 2) = a ++ ':' :: [x, y] := by
  have hl : (a ++ [x, y]).length - 2 = a.length := by simp
  rw [hl, List.take_left, List.drop_left]

/-- iso_for_google_ads of any valid timezone-aware datetime matches the
textual pattern YYYY-MM-DD HH:MM:SS(sign)HH:MM. -/
theorem iso_for_google_ads_shape (dt : PyDatetime) (h : validDT dt) :
    shapeOK adsShape (iso_for_google_ads dt) = true := by
  obtain ⟨hy1, hy2, hm1, hm2, hd1, hd2, hh, hmi, hs, ho⟩ := h
  have hsplit : strftimeYmdHmsZ dt =
      (pad4 dt.year ++ '-' :: (pad2 dt.month ++ '-' :: (pad2 dt.day ++ ' ' ::
        (pad2 dt.hour ++ ':' :: (pad2 dt.minute ++ ':' :: (pad2 dt.second ++
          (if dt.offMinutes < 0 then '-' else '+') ::
            pad2 (dt.offMinutes.natAbs / 60))))))) ++
      [Nat.digitChar (dt.offMinutes.natAbs % 60 / 10),
       Nat.digitChar (dt.offMinutes.natAbs % 60 % 10)] := by
    simp [strftimeYmdHmsZ, formatOffset, pad2, List.append_assoc]
  have hiso : iso_for_google_ads dt =
      (pad4 dt.year ++ '-' :: (pad2 dt.month ++ '-' :: (pad2 dt.day ++ ' ' ::
        (pad2 dt.hour ++ ':' :: (pad2 dt.minute ++ ':' :: (pad2 dt.second ++
          (if dt.offMinutes < 0 then '-' else '+') ::
            pad2 (dt.offMinutes.natAbs / 60))))))) ++ ':' ::
      [Nat.digitChar (dt.offMinutes.natAbs % 60 / 10),
       Nat.digitChar (dt.offMinutes.natAbs % 60 % 10)] := by
    simp only [iso_for_google_ads]
    rw [hsplit]
    exact spliceColon _ _ _
  rw [hiso]
  have hofm : shapeOK [STok.digit, STok.digit]
      [Nat.digitChar (dt.offMinutes.natAbs % 60 / 10),
       Nat.digitChar (dt.offMinutes.natAbs % 60 % 10)] := by
    have := shapeOK_pad2 (dt.offMinutes.natAbs % 60) (by omega)
    simpa [pad2] using this
  have h1 : shapeOK (STok.lit ':' :: [STok.digit, STok.digit])
      (':' :: [Nat.digitChar (dt.offMinutes.natAbs % 60 / 10),
               Nat.digitChar (dt.offMinutes.natAbs % 60 % 10)]) = true :=
    shapeOK_lit_cons _ _ _ hofm
  have h2 : shapeOK ([STok.digit, STok.digit] ++
        STok.lit ':' :: [STok.digit, STok.digit])
      (pad2 (dt.offMinutes.natAbs / 60) ++
        ':' :: [Nat.digitChar (dt.offMinutes.natAbs % 60 / 10),
                Nat.digitChar (dt.offMinutes.natAbs % 60 % 10)]) = true :=
    shapeOK_append (shapeOK_pad2 _ (by omega)) h1
  have h3 : shapeOK (STok.sign :: ([STok.digit, STok.digit] ++
        STok.lit ':' :: [STok.digit, STok.digit]))
      ((if dt.offMinutes < 0 then '-' else '+') ::
        (pad2 (dt.offMinutes.natAbs / 60) ++
          ':' :: [Nat.digitChar (dt.offMinutes.natAbs % 60 / 10),
                  Nat.digitChar (dt.offMinutes.natAbs % 60 % 10)])) = true := by
    apply shapeOK_sign_cons _ _ _ _ h2
    by_cases hneg : dt.offMinutes < 0 <;> simp [hneg]
  have h4 := shapeOK_append (shapeOK_pad2 dt.second (by omega)) h3
  have h5 := shapeOK_lit_cons ':' _ _ h4
  have h6 := shapeOK_append (shapeOK_pad2 dt.minute (by omega)) h5
  have h7 := shapeOK_lit_cons ':' _ _ h6
  have h8 := shapeOK_append (shapeOK_pad2 dt.hour (by omega)) h7
  have h9 := shapeOK_lit_cons ' ' _ _ h8
  have h10 := shapeOK_append (shapeOK_pad2 dt.day (by omega)) h9
  have h11 := shapeOK_lit_cons '-' _ _ h10
  have h12 := shapeOK_append (shapeOK_pad2 dt.month (by omega)) h11
  have h13 := shapeOK_lit_cons '-' _ _ h12
  have h14 := shapeOK_append (shapeOK_pad4 dt.year (by omega)) h13
  have hnorm : shapeOK adsShape
      ((pad4 dt.year ++ '-' :: (pad2 dt.month ++ '-' :: (pad2 dt.day ++ ' ' ::
        (pad2 dt.hour ++ ':' :: (pad2 dt.minute ++ ':' :: (pad2 dt.second ++
          (if dt.offMinutes < 0 then '-' else '+') ::
            pad2 (dt.offMinutes.natAbs / 60))))))) ++ ':' ::
      [Nat.digitChar (dt.offMinutes.natAbs % 60 / 10),
       Nat.digitChar (dt.offMinutes.natAbs % 60 % 10)]) =
      shapeOK adsShape
      (pad4 dt.year ++ '-' :: (pad2 dt.month ++ '-' :: (pad2 dt.day ++ ' ' ::
        (pad2 dt.hour ++ ':' :: (pad2 dt.minute ++ ':' :: (pad2 dt.second ++
          (if dt.offMinutes < 0 then '-' else '+') ::
            (pad2 (dt.offMinutes.natAbs / 60) ++
              ':' :: [Nat.digitChar (dt.offMinutes.natAbs % 60 / 10),
                      Nat.digitChar (dt.offMinutes.natAbs % 60 % 10)]))))))) := by
    simp [List.append_assoc]
  rw [hnorm]
  exact h14

/-- C8 counterexample: when the approval call fails, the handler still
performs the binding lookup and still invokes the conversion upload —
ApproveFailed is not terminal in the code. -/
theorem c8_approve_failed_counterexample :
    ((on_join_request c8State 42 true ("111".data) ("222".data) c8Now
        ("42".data) ("0".data) ("deadbeef".data) true false).approved = false) ∧
    ((on_join_request c8State 42 true ("111".data) ("222".data) c8Now
        ("42".data) ("0".data) ("deadbeef".data) true false).lookupPerformed = true) ∧
    ((on_join_request c8State 42 true ("111".data) ("222".data) c8Now
        ("42".data) ("0".data) ("deadbeef".data) true false).uploadInvoked = true) := by
  refine ⟨by decide, by decide, by decide⟩

/-- C8 amended: when the approval call fails the handler logs the failure
and continues: the binding lookup is still performed, and a conversion
upload is still invoked exactly when a binding is found and the reporter
client is configured. -/
theorem c8_continue_after_approve_failure (st : Storage) (uid : Int)
    (adsReady : Bool) (customerId actionId : Str) (now : PyDatetime)
    (uidStr tsStr uuid8 : Str) (getFails : Bool) :
    (on_join_request st uid adsReady customerId actionId now
      uidStr tsStr uuid8 true getFails).approved = false ∧
    (on_join_request st uid adsReady customerId actionId now
      uidStr tsStr uuid8 true getFails).lookupPerformed = true ∧
    (on_join_request st uid adsReady customerId actionId now
      uidStr tsStr uuid8 true getFails).uploadInvoked =
      (adsReady && (get_click st uid getFails).isSome) := by
  cases hp : get_click st uid getFails with
  | none => cases adsReady <;> simp [on_join_request, hp]
  | some p =>
    obtain ⟨key, val⟩ := p
    cases adsReady <;> simp [on_join_request, hp]

/-- C9: for a join request by user 42 with stored binding (gclid, abc123)
and a configured reporter, exactly one ConversionRecord is built,
carrying gclid abc123, a non-empty dedup token, and a timestamp of shape
YYYY-MM-DD HH:MM:SS(sign)HH:MM; and iso_for_google_ads of any valid
timezone-aware datetime has that shape. -/
theorem c9_conversion_record (st : Storage) (now : PyDatetime)
    (customerId actionId uidStr tsStr uuid8 : Str)
    (approveFails getFails : Bool)
    (hpair : get_click st 42 getFails = some ("gclid".data, "abc123".data))
    (hdt : validDT now) :
    (∃ r : ConversionRecord,
      (on_join_request st 42 true customerId actionId now
        uidStr tsStr uuid8 approveFails getFails).record = some r ∧
      r.gclid = some ("abc123".data) ∧
      (∃ d : Str, r.order_id = some d ∧ d ≠ []) ∧
      shapeOK adsShape r.conversion_date_time = true) ∧
    (∀ dt : PyDatetime, validDT dt →
      shapeOK adsShape (iso_for_google_ads dt) = true) := by
  refine ⟨?_, fun dt h => iso_for_google_ads_shape dt h⟩
  have hrec : (on_join_request st 42 true customerId actionId now
      uidStr tsStr uuid8 approveFails getFails).record =
      some { gclid := some ("abc123".data), gbraid := none, wbraid := none,
             conversion_action := "customers/".data ++ customerId ++
               "/conversionActions/".data ++ actionId,
             conversion_date_time := iso_for_google_ads now,
             currency_code := "UAH".data,
             order_id := some ("join-".data ++ uidStr ++ "-".data ++ tsStr ++
               "-".data ++ uuid8) } := by
    simp [on_join_request, hpair, upload_click_conversion, truthy, Except.toOption]
  refine ⟨_, hrec, rfl, ⟨_, rfl, ?_⟩, iso_for_google_ads_shape now hdt⟩
  simp

/-- Witness for C9: the concrete store of the C8 section with a concrete
valid datetime discharges the hypotheses. -/
theorem c9_conversion_record_witness :
    ∃ r : ConversionRecord,
      (on_join_request c9State 42 true ("111".data) ("222".data) c9Now
        ("42".data) ("0".data) ("deadbeef".data) false false).record = some r ∧
      r.gclid = some ("abc123".data) := by
  have h := c9_conversion_record c9State c9Now ("111".data) ("222".data)
    ("42".data) ("0".data) ("deadbeef".data) false false (by decide) (by decide)
  obtain ⟨⟨r, hr, hg, _, _⟩, _⟩ := h
  exact ⟨r, hr, hg⟩

/-- Every string starts with its own prefix. -/
theorem startsWithStr_append_self (m b : Str) : startsWithStr m (m ++ b) = true := by
  induction m with
  | nil => rfl
  | cons c cs ih => simp [startsWithStr, ih]

/-- A string that starts with the needle contains it. -/
theorem containsSub_head (m h : Str) (hs : startsWithStr m h = true) :
    containsSub m h = true := by
  cases h with
  | nil => simpa [containsSub] using hs
  | cons c cs => simp [containsSub, hs]

/-- A needle sitting in the middle of a string is contained in it. -/
theorem containsSub_mid (m a b : Str) : containsSub m (a ++ (m ++ b)) = true := by
  induction a with
  | nil =>
    simpa using containsSub_head m (m ++ b) (startsWithStr_append_self m b)
  | cons x xs ih => simp [containsSub, ih]

/-- No occurrence of the needle means the scan finds nothing. -/
theorem lastHit_none (m s : Str) (h : containsSub m s = false) :
    lastHit m s = none := by
  induction s with
  | nil => rfl
  | cons c cs ih =>
    simp only [containsSub, Bool.or_eq_false_iff] at h
    simp [lastHit, ih h.2, goodAt, h.1]

/-- takeWhile collects exactly the allowed block when the rest starts
with a disallowed character (or is empty). -/
theorem takeWhile_all_append (X r : Str) (hXall : X.all okChar = true)
    (hr : headNotOk r = true) : (X ++ r).takeWhile okChar = X := by
  induction X with
  | nil =>
    cases r with
    | nil => rfl
    | cons c cs =>
      have hc : okChar c = false := by simpa [headNotOk] using hr
      simp [List.takeWhile_cons, hc]
  | cons x xs ih =>
    simp only [List.all_cons, Bool.and_eq_true] at hXall
    simp [List.takeWhile_cons, hXall.1, ih hXall.2]

/-- The scan at the occurrence itself: when the string starts with the
marker, followed by a maximal allowed block, and the marker does not
occur again past the first character, the scan captures the block. -/
theorem lastHit_occurrence (m X r : Str) (hm : m ≠ [])
    (hX : X ≠ []) (hXall : X.all okChar = true) (hr : headNotOk r = true)
    (hlast : containsSub m ((m ++ (X ++ r)).drop 1) = false) :
    lastHit m (m ++ (X ++ r)) = some X := by
  obtain ⟨mc, ms, rfl⟩ : ∃ mc ms, m = mc :: ms := by
    cases m with
    | nil => exact absurd rfl hm
    | cons a b => exact ⟨a, b, rfl⟩
  have hlast' : containsSub (mc :: ms) (ms ++ (X ++ r)) = false := hlast
  have hnone := lastHit_none _ _ hlast'
  have hgood : goodAt (mc :: ms) ((mc :: ms) ++ (X ++ r)) = some X := by
    have hsw := startsWithStr_append_self (mc :: ms) (X ++ r)
    have hdl : (((mc :: ms) ++ (X ++ r)).drop (mc :: ms).length) = X ++ r :=
      List.drop_left _ _
    simp only [goodAt, hsw, if_true, hdl, takeWhile_all_append X r hXall hr]
    cases X with
    | nil => exact absurd rfl hX
    | cons a b => rfl
  show lastHit (mc :: ms) (mc :: (ms ++ (X ++ r))) = some X
  simp only [lastHit, hnone]
  exact hgood

/-- A hit found in the tail survives prepending any prefix. -/
theorem lastHit_prepend (m t p X : Str) (h : lastHit m t = some X) :
    lastHit m (p ++ t) = some X := by
  induction p with
  | nil => simpa using h
  | cons c cs ih =>
    show lastHit m (c :: (cs ++ t)) = some X
    simp only [lastHit, ih]

/-- The modelled re.sub extracts the block following the last marker
occurrence, for a newline-free string shaped around that occurrence. -/
theorem pyExtract_marker (m p X r : Str) (hm : m ≠ [])
    (hX : X ≠ []) (hXall : X.all okChar = true) (hr : headNotOk r = true)
    (hnl : (p ++ (m ++ (X ++ r))).any (fun c => c = '\n') = false)
    (hlast : containsSub m ((m ++ (X ++ r)).drop 1) = false) :
    pyExtractReSub m (p ++ (m ++ (X ++ r))) = X := by
  have hhit := lastHit_prepend m (m ++ (X ++ r)) p X
    (lastHit_occurrence m X r hm hX hXall hr hlast)
  simp [pyExtractReSub, hnl, hhit]

/-! ## Claim theorems: classifier -/

/-- C4 counterexample: the input WBRAID=abc contains the marker wbraid=
case-insensitively (so the claim demands the extracted value abc), but
the classifier returns the whole string as the value because the
extraction regex is case-sensitive while the marker check is not. -/
theorem c4_counterexample :
    classify_click_id ("WBRAID=abc".data) =
      ("wbraid".data, "WBRAID=abc".data) ∧
    ("WBRAID=abc".data : Str) ≠ "abc".data := by
  exact ⟨by decide, by decide⟩

/-- C4 amended: when the marker of the kind occurs literally (lowercase)
in the stripped input, the input has no newline, the block X after the
last such occurrence is a non-empty run of characters other than an
ampersand or whitespace, ended by the string end or such a character,
and every higher-priority marker check fails, then classify_click_id
returns the matching kind and extracts exactly X, with no trailing
remainder. -/
theorem c4_marker_extraction (k : ClickKind) (s p X r : Str)
    (hv : pyStrip s = p ++ (markerOf k ++ (X ++ r)))
    (hnl : (p ++ (markerOf k ++ (X ++ r))).any (fun c => c = '\n') = false)
    (hX : X ≠ []) (hXall : X.all okChar = true) (hr : headNotOk r = true)
    (hlast : containsSub (markerOf k) ((markerOf k ++ (X ++ r)).drop 1) = false)
    (hprior : priorChecksFail k
      ((p ++ (markerOf k ++ (X ++ r))).map Char.toLower) = true) :
    classify_click_id s = (kindName k, X) := by
  have hm : markerOf k ≠ [] := by cases k <;> decide
  have hmap : (markerOf k).map Char.toLower = markerOf k := by cases k <;> decide
  have hcont : containsSub (markerOf k)
      ((p ++ (markerOf k ++ (X ++ r))).map Char.toLower) = true := by
    rw [List.map_append, List.map_append, hmap]
    exact containsSub_mid _ _ _
  have hex : pyExtractReSub (markerOf k) (p ++ (markerOf k ++ (X ++ r))) = X :=
    pyExtract_marker _ _ _ _ hm hX hXall hr hnl hlast
  cases k with
  | wbraid =>
    simp only [markerOf] at hv hcont hex
    simp at hv hcont hex
    simp [classify_click_id, kindName, hv, hcont, hex]
  | gbraid =>
    simp only [priorChecksFail, markerOf] at hprior
    simp only [markerOf] at hv hcont hex
    simp at hv hcont hex hprior
    simp [classify_click_id, kindName, hv, hcont, hex, hprior.1, hprior.2]
  | gclid =>
    simp only [priorChecksFail, markerOf] at hprior
    simp only [markerOf] at hv hcont hex
    simp at hv hcont hex hprior
    simp [classify_click_id, kindName, hv, hcont, hex,
      hprior.1.1, hprior.1.2, hprior.2.1, hprior.2.2]

/-- Witness for C4 amended: a concrete URL fragment with a wbraid
parameter followed by a further query parameter. -/
theorem c4_marker_extraction_witness :
    classify_click_id ("x?wbraid=ABC123&z".data) =
      ("wbraid".data, "ABC123".data) := by
  have h := c4_marker_extraction ClickKind.wbraid ("x?wbraid=ABC123&z".data)
    ("x?".data) ("ABC123".data) ("&z".data)
    (by decide) (by decide) (by decide) (by decide) (by decide) (by decide)
    (by decide)
  exact h

/-- C5 counterexample: the input with surrounding spaces contains no
recognizable marker, yet the returned value is the stripped string, not
the input unchanged. -/
theorem c5_counterexample :
    classify_click_id (" x ".data) = ("gclid".data, "x".data) ∧
    ((" x ".data : Str)) ≠ "x".data := by
  exact ⟨by decide, by decide⟩

/-- C5 amended: classify_click_id is total by construction, and on every
input whose stripped lowercased form triggers none of the marker checks
it returns kind gclid with the stripped input as the value — equal to
the input itself exactly when the input carries no surrounding
whitespace. -/
theorem c5_no_marker_default (s : Str)
    (h1 : containsSub ("wbraid=".data) ((pyStrip s).map Char.toLower) = false)
    (h2 : startsWithStr ("wbraid.".data) ((pyStrip s).map Char.toLower) = false)
    (h3 : containsSub ("gbraid=".data) ((pyStrip s).map Char.toLower) = false)
    (h4 : startsWithStr ("gbraid.".data) ((pyStrip s).map Char.toLower) = false)
    (h5 : containsSub ("gclid=".data) ((pyStrip s).map Char.toLower) = false)
    (h6 : startsWithStr ("c.".data) ((pyStrip s).map Char.toLower) = false) :
    classify_click_id s = ("gclid".data, pyStrip s) ∧
    (pyStrip s = s → classify_click_id s = ("gclid".data, s)) := by
  have hmain : classify_click_id s = ("gclid".data, pyStrip s) := by
    simp [classify_click_id, h1, h2, h3, h4, h5, h6]
  exact ⟨hmain, fun he => by rw [hmain, he]⟩

/-- Witness for C5 amended: an input with no marker and no surrounding
whitespace is returned unchanged. -/
theorem c5_no_marker_default_witness :
    classify_click_id ("hello world!".data) =
      ("gclid".data, "hello world!".data) := by
  have h := c5_no_marker_default ("hello world!".data)
    (by decide) (by decide) (by decide) (by decide) (by decide) (by decide)
  exact h.2 (by decide)
